import Mathlib

/-
Verification of the cruiser typescript serialization helpers
(src/ts_helpers/src/num.ts and the borsh helper module) against the
natural-language specification of the repository.

The embedding models Node Buffer as a list of byte values, the mutable
cursor object as an explicit offset threaded through each call, thrown
exceptions as the error side of Except, and the class constructors as
functions returning Except so that the range check of each bounded
numeric class is observable.
-/

namespace Cruiser

/-- A Node Buffer: a finite sequence of byte values. -/
abbrev Buffer := List Nat

/-- Errors thrown by the codecs: RangeError-style bounds violations from the
bounded numeric constructors (carrying the offending value and the valid
range, which the source formats into the message string), and buffer
over-run errors from the Node Buffer read and write primitives. -/
inductive CodecErr where
  | underrun : CodecErr
  | rangeErr : Int → Int → Int → CodecErr
deriving DecidableEq, Repr

/-- Little-endian byte decomposition of a natural number into w bytes. -/
def natToBytesLE : Nat → Nat → List Nat
  | 0, _ => []
  | w + 1, v => v % 256 :: natToBytesLE w (v / 256)

/-- Little-endian recomposition of a byte list into a natural number. -/
def bytesToNatLE : List Nat → Nat
  | [] => 0
  | b :: rest => b + 256 * bytesToNatLE rest

/-- Overwrite the bytes of buf starting at index off with the given bytes.
List.set leaves the list unchanged on an out-of-range index, matching the
clamping behaviour of Node Buffer.copy. -/
def writeBytes : Buffer → Nat → List Nat → Buffer
  | buf, _, [] => buf
  | buf, off, b :: rest => writeBytes (buf.set off b) (off + 1) rest

/-- Two of-complement encoding of an integer into w bytes worth of bits. -/
def toTwos (w : Nat) (v : Int) : Nat :=
  (v % ((2 ^ (8 * w) : Nat) : Int)).toNat

/-- Two of-complement decoding of w bytes worth of bits into an integer. -/
def fromTwos (w : Nat) (u : Nat) : Int :=
  if u < 2 ^ (8 * w - 1) then (u : Int) else (u : Int) - ((2 ^ (8 * w) : Nat) : Int)

/-- Node Buffer.writeUIntLE-family primitive: bounds-check, then store the w
little-endian bytes of v at off. -/
def bufWriteUIntLE (buf : Buffer) (off w : Nat) (v : Nat) : Except CodecErr Buffer :=
  if off + w ≤ buf.length then .ok (writeBytes buf off (natToBytesLE w v))
  else .error .underrun

/-- Node Buffer.writeIntLE-family primitive: store the two of-complement
encoding of v. -/
def bufWriteIntLE (buf : Buffer) (off w : Nat) (v : Int) : Except CodecErr Buffer :=
  bufWriteUIntLE buf off w (toTwos w v)

/-- Node Buffer.readUIntLE-family primitive: bounds-check, then read w
little-endian bytes at off. -/
def bufReadUIntLE (buf : Buffer) (off w : Nat) : Except CodecErr Nat :=
  if off + w ≤ buf.length then .ok (bytesToNatLE ((buf.drop off).take w))
  else .error .underrun

/-- Node Buffer.readIntLE-family primitive: signed variant. -/
def bufReadIntLE (buf : Buffer) (off w : Nat) : Except CodecErr Int :=
  if off + w ≤ buf.length then .ok (fromTwos w (bytesToNatLE ((buf.drop off).take w)))
  else .error .underrun

/-- The i8 wrapper class of num.ts. -/
structure i8 where
  value : Int
deriving DecidableEq, Repr

namespace i8

def bounds_min : Int := -128

def bounds_max : Int := 127

/-- The i8 constructor: throws when the value is outside the bounds. -/
def mk? (value : Int) : Except CodecErr i8 :=
  if value < bounds_min ∨ value > bounds_max then
    .error (.rangeErr value bounds_min bounds_max)
  else .ok ⟨value⟩

/-- i8.write: buffer.writeInt8(this.value, offset.offset); offset.offset += 1. -/
def write (x : i8) (buffer : Buffer) (off : Nat) : Except CodecErr (Buffer × Nat) :=
  match bufWriteIntLE buffer off 1 x.value with
  | .error e => .error e
  | .ok b => .ok (b, off + 1)

def staticSize : Nat := 1

def serializedSize (_ : i8) : Nat := staticSize

/-- i8.read: value = buffer.readInt8(offset.offset); offset.offset += 1;
return new i8(value). -/
def read (buffer : Buffer) (off : Nat) : Except CodecErr (i8 × Nat) :=
  match bufReadIntLE buffer off 1 with
  | .error e => .error e
  | .ok value =>
    match mk? value with
    | .error e => .error e
    | .ok x => .ok (x, off + 1)

def equals (a other : i8) : Bool := a.value == other.value

end i8

/-- The i16 wrapper class of num.ts. -/
structure i16 where
  value : Int
deriving DecidableEq, Repr

namespace i16

def bounds_min : Int := -32768

def bounds_max : Int := 32767

def mk? (value : Int) : Except CodecErr i16 :=
  if value < bounds_min ∨ value > bounds_max then
    .error (.rangeErr value bounds_min bounds_max)
  else .ok ⟨value⟩

/-- i16.write: buffer.writeInt16LE(this.value, offset.offset); offset.offset += 2. -/
def write (x : i16) (buffer : Buffer) (off : Nat) : Except CodecErr (Buffer × Nat) :=
  match bufWriteIntLE buffer off 2 x.value with
  | .error e => .error e
  | .ok b => .ok (b, off + 2)

def staticSize : Nat := 2

def serializedSize (_ : i16) : Nat := staticSize

def read (buffer : Buffer) (off : Nat) : Except CodecErr (i16 × Nat) :=
  match bufReadIntLE buffer off 2 with
  | .error e => .error e
  | .ok value =>
    match mk? value with
    | .error e => .error e
    | .ok x => .ok (x, off + 2)

def equals (a other : i16) : Bool := a.value == other.value

end i16

/-- The i32 wrapper class of num.ts. -/
structure i32 where
  value : Int
deriving DecidableEq, Repr

namespace i32

def bounds_min : Int := -2147483648

def bounds_max : Int := 2147483647

def mk? (value : Int) : Except CodecErr i32 :=
  if value < bounds_min ∨ value > bounds_max then
    .error (.rangeErr value bounds_min bounds_max)
  else .ok ⟨value⟩

/-- i32.write: buffer.writeInt32LE(this.value, offset.offset); offset.offset += 4. -/
def write (x : i32) (buffer : Buffer) (off : Nat) : Except CodecErr (Buffer × Nat) :=
  match bufWriteIntLE buffer off 4 x.value with
  | .error e => .error e
  | .ok b => .ok (b, off + 4)

def staticSize : Nat := 4

def serializedSize (_ : i32) : Nat := staticSize

def read (buffer : Buffer) (off : Nat) : Except CodecErr (i32 × Nat) :=
  match bufReadIntLE buffer off 4 with
  | .error e => .error e
  | .ok value =>
    match mk? value with
    | .error e => .error e
    | .ok x => .ok (x, off + 4)

def equals (a other : i32) : Bool := a.value == other.value

end i32

/-- The i64 wrapper class of num.ts (bigint-valued). -/
structure i64 where
  value : Int
deriving DecidableEq, Repr

namespace i64

def bounds_min : Int := -9223372036854775808

def bounds_max : Int := 9223372036854775807

def mk? (value : Int) : Except CodecErr i64 :=
  if value < bounds_min ∨ value > bounds_max then
    .error (.rangeErr value bounds_min bounds_max)
  else .ok ⟨value⟩

/-- i64.write: buffer.writeBigInt64LE(this.value, offset.offset);
offset.offset += 8. -/
def write (x : i64) (buffer : Buffer) (off : Nat) : Except CodecErr (Buffer × Nat) :=
  match bufWriteIntLE buffer off 8 x.value with
  | .error e => .error e
  | .ok b => .ok (b, off + 8)

def staticSize : Nat := 8

def serializedSize (_ : i64) : Nat := staticSize

def read (buffer : Buffer) (off : Nat) : Except CodecErr (i64 × Nat) :=
  match bufReadIntLE buffer off 8 with
  | .error e => .error e
  | .ok value =>
    match mk? value with
    | .error e => .error e
    | .ok x => .ok (x, off + 8)

def equals (a other : i64) : Bool := a.value == other.value

end i64

/-- The u8 wrapper class of num.ts. -/
structure u8 where
  value : Int
deriving DecidableEq, Repr

namespace u8

def bounds_min : Int := 0

def bounds_max : Int := 255

def mk? (value : Int) : Except CodecErr u8 :=
  if value < bounds_min ∨ value > bounds_max then
    .error (.rangeErr value bounds_min bounds_max)
  else .ok ⟨value⟩

/-- u8.write: buffer.writeUInt8(this.value, offset.offset); offset.offset += 1. -/
def write (x : u8) (buffer : Buffer) (off : Nat) : Except CodecErr (Buffer × Nat) :=
  match bufWriteUIntLE buffer off 1 x.value.toNat with
  | .error e => .error e
  | .ok b => .ok (b, off + 1)

def staticSize : Nat := 1

def serializedSize (_ : u8) : Nat := staticSize

def read (buffer : Buffer) (off : Nat) : Except CodecErr (u8 × Nat) :=
  match bufReadUIntLE buffer off 1 with
  | .error e => .error e
  | .ok value =>
    match mk? (value : Int) with
    | .error e => .error e
    | .ok x => .ok (x, off + 1)

def equals (a other : u8) : Bool := a.value == other.value

end u8

/-- The u16 wrapper class of num.ts. Note: the source writes and reads two
bytes (writeUInt16LE / readUInt16LE) but advances the cursor by 1 and
reports staticSize 1; the embedding reproduces these lines as written. -/
structure u16 where
  value : Int
deriving DecidableEq, Repr

namespace u16

def bounds_min : Int := 0

def bounds_max : Int := 65535

def mk? (value : Int) : Except CodecErr u16 :=
  if value < bounds_min ∨ value > bounds_max then
    .error (.rangeErr value bounds_min bounds_max)
  else .ok ⟨value⟩

/-- u16.write: buffer.writeUInt16LE(this.value, offset.offset);
offset.offset += 1 (sic, the source advances by 1). -/
def write (x : u16) (buffer : Buffer) (off : Nat) : Except CodecErr (Buffer × Nat) :=
  match bufWriteUIntLE buffer off 2 x.value.toNat with
  | .error e => .error e
  | .ok b => .ok (b, off + 1)

/-- u16.staticSize returns 1 in the source (sic). -/
def staticSize : Nat := 1

def serializedSize (_ : u16) : Nat := staticSize

/-- u16.read: value = buffer.readUInt16LE(offset.offset); offset.offset += 1
(sic); return new u16(value). -/
def read (buffer : Buffer) (off : Nat) : Except CodecErr (u16 × Nat) :=
  match bufReadUIntLE buffer off 2 with
  | .error e => .error e
  | .ok value =>
    match mk? (value : Int) with
    | .error e => .error e
    | .ok x => .ok (x, off + 1)

def equals (a other : u16) : Bool := a.value == other.value

end u16

/-- The u32 wrapper class of num.ts. Same cursor and size anomaly as u16:
four bytes move, cursor advances by 1, staticSize reports 1. -/
structure u32 where
  value : Int
deriving DecidableEq, Repr

namespace u32

def bounds_min : Int := 0

def bounds_max : Int := 4294967295

def mk? (value : Int) : Except CodecErr u32 :=
  if value < bounds_min ∨ value > bounds_max then
    .error (.rangeErr value bounds_min bounds_max)
  else .ok ⟨value⟩

/-- u32.write: buffer.writeUint32LE(this.value, offset.offset);
offset.offset += 1 (sic). -/
def write (x : u32) (buffer : Buffer) (off : Nat) : Except CodecErr (Buffer × Nat) :=
  match bufWriteUIntLE buffer off 4 x.value.toNat with
  | .error e => .error e
  | .ok b => .ok (b, off + 1)

/-- u32.staticSize returns 1 in the source (sic). -/
def staticSize : Nat := 1

def serializedSize (_ : u32) : Nat := staticSize

def read (buffer : Buffer) (off : Nat) : Except CodecErr (u32 × Nat) :=
  match bufReadUIntLE buffer off 4 with
  | .error e => .error e
  | .ok value =>
    match mk? (value : Int) with
    | .error e => .error e
    | .ok x => .ok (x, off + 1)

def equals (a other : u32) : Bool := a.value == other.value

end u32

/-- The u64 wrapper class of num.ts (bigint-valued). Same cursor and size
anomaly as u16 and u32. -/
structure u64 where
  value : Int
deriving DecidableEq, Repr

namespace u64

def bounds_min : Int := 0

def bounds_max : Int := 18446744073709551615

def mk? (value : Int) : Except CodecErr u64 :=
  if value < bounds_min ∨ value > bounds_max then
    .error (.rangeErr value bounds_min bounds_max)
  else .ok ⟨value⟩

/-- u64.write: buffer.writeBigUint64LE(this.value, offset.offset);
offset.offset += 1 (sic). -/
def write (x : u64) (buffer : Buffer) (off : Nat) : Except CodecErr (Buffer × Nat) :=
  match bufWriteUIntLE buffer off 8 x.value.toNat with
  | .error e => .error e
  | .ok b => .ok (b, off + 1)

/-- u64.staticSize returns 1 in the source (sic). -/
def staticSize : Nat := 1

def serializedSize (_ : u64) : Nat := staticSize

def read (buffer : Buffer) (off : Nat) : Except CodecErr (u64 × Nat) :=
  match bufReadUIntLE buffer off 8 with
  | .error e => .error e
  | .ok value =>
    match mk? (value : Int) with
    | .error e => .error e
    | .ok x => .ok (x, off + 1)

def equals (a other : u64) : Bool := a.value == other.value

end u64

/-- A public key from the external addressing library: an opaque value whose
toBuffer form is a 32-byte sequence. Modelled as the byte sequence itself,
which is all this core observes of it. -/
structure PublicKey where
  bytes : List Nat
deriving DecidableEq, Repr

/-- The SerializablePublicKey wrapper of the borsh helper module. -/
structure SerializablePublicKey where
  key : PublicKey
deriving DecidableEq, Repr

namespace SerializablePublicKey

/-- write: this.key.toBuffer().copy(buffer, offset.offset);
offset.offset += 32. Node Buffer.copy clamps at the target end, which the
List.set based writeBytes reproduces. -/
def write (s : SerializablePublicKey) (buffer : Buffer) (off : Nat) : Buffer × Nat :=
  (writeBytes buffer off s.key.bytes, off + 32)

def serializedSize (_ : SerializablePublicKey) : Nat := 32

/-- read: key = new PublicKey(buffer.slice(offset.offset, offset.offset + 32));
offset.offset += 32. -/
def read (buffer : Buffer) (off : Nat) : SerializablePublicKey × Nat :=
  (⟨⟨(buffer.drop off).take 32⟩⟩, off + 32)

def staticSize : Nat := 32

def equals (a other : SerializablePublicKey) : Bool := a.key.bytes == other.key.bytes

end SerializablePublicKey

/-- readAccount of the borsh helper module, generic over the discriminant
type D and record type T. The class-based interfaces are passed as explicit
function arguments: dRead models dCons.read, dEquals the equals method of
the decoded discriminant, tDiscriminant the value tCons.discriminant(), and
tRead models tCons.read. Returns the decoded record (or none on a
discriminant mismatch) together with the final cursor offset. -/
def readAccount {D T : Type}
    (dRead : Buffer → Nat → Except CodecErr (D × Nat))
    (dEquals : D → D → Bool)
    (tDiscriminant : D)
    (tRead : Buffer → Nat → Except CodecErr (T × Nat))
    (buffer : Buffer) (off : Nat) : Except CodecErr (Option T × Nat) :=
  match dRead buffer off with
  | .error e => .error e
  | .ok (discriminant, off1) =>
    if dEquals discriminant tDiscriminant then
      match tRead buffer off1 with
      | .error e => .error e
      | .ok (t, off2) => .ok (some t, off2)
    else
      .ok (none, off1)

/-- readAccount invoked without an explicit cursor argument: the source
declares the offset parameter with default value \x7b offset: 0 \x7d. -/
def readAccountDefault {D T : Type}
    (dRead : Buffer → Nat → Except CodecErr (D × Nat))
    (dEquals : D → D → Bool)
    (tDiscriminant : D)
    (tRead : Buffer → Nat → Except CodecErr (T × Nat))
    (buffer : Buffer) : Except CodecErr (Option T × Nat) :=
  readAccount dRead dEquals tDiscriminant tRead buffer 0

/-- serializeInstruction of the borsh helper module: allocate a zero-filled
buffer of size discriminant.serializedSize() + instruction.serializedSize()
(Buffer.alloc zero-fills), write the discriminant at cursor 0, then write
the instruction body at the advanced cursor, and return the buffer. -/
def serializeInstruction {D T : Type}
    (tDiscriminant : D)
    (dSerializedSize : D → Nat)
    (dWrite : D → Buffer → Nat → Except CodecErr (Buffer × Nat))
    (tSerializedSize : T → Nat)
    (tWrite : T → Buffer → Nat → Except CodecErr (Buffer × Nat))
    (instruction : T) : Except CodecErr Buffer :=
  let discriminant := tDiscriminant
  let buffer : Buffer :=
    List.replicate (dSerializedSize discriminant + tSerializedSize instruction) 0
  match dWrite discriminant buffer 0 with
  | .error e => .error e
  | .ok (buf1, off1) =>
    match tWrite instruction buf1 off1 with
    | .error e => .error e
    | .ok (buf2, _) => .ok buf2

/-- Helper: the i8 constructor rejects every out-of-range value with an
error carrying the value and the bounds. -/
lemma i8_mk_out (v : Int) (h : v < (-128) ∨ 127 < v) :
    i8.mk? v = .error (.rangeErr v (-128) 127) := by
  unfold i8.mk? i8.bounds_min i8.bounds_max
  rw [if_pos h]

/-- Helper: a successful i8 construction stores exactly the given value. -/
lemma i8_mk_ok_shape (v : Int) (y : i8) (h : i8.mk? v = .ok y) : y = ⟨v⟩ := by
  unfold i8.mk? at h
  split at h
  · cases h
  · injection h with h2
    exact h2.symm

/-- Helper: every value produced by i8.read passes the i8 constructor
check, because read constructs its result through that constructor. -/
lemma i8_read_validates (buffer : Buffer) (off : Nat) (x : i8) (off2 : Nat)
    (h : i8.read buffer off = .ok (x, off2)) : i8.mk? x.value = .ok x := by
  unfold i8.read at h
  split at h
  next e heq => cases h
  next v heq =>
    split at h
    next e2 hm => cases h
    next y hm =>
      injection h with h2
      injection h2 with hx ho
      subst hx
      obtain rfl := i8_mk_ok_shape _ y hm
      exact hm

/-- Helper: the i16 constructor rejects every out-of-range value with an
error carrying the value and the bounds. -/
lemma i16_mk_out (v : Int) (h : v < (-32768) ∨ 32767 < v) :
    i16.mk? v = .error (.rangeErr v (-32768) 32767) := by
  unfold i16.mk? i16.bounds_min i16.bounds_max
  rw [if_pos h]

/-- Helper: a successful i16 construction stores exactly the given value. -/
lemma i16_mk_ok_shape (v : Int) (y : i16) (h : i16.mk? v = .ok y) : y = ⟨v⟩ := by
  unfold i16.mk? at h
  split at h
  · cases h
  · injection h with h2
    exact h2.symm

/-- Helper: every value produced by i16.read passes the i16 constructor
check, because read constructs its result through that constructor. -/
lemma i16_read_validates (buffer : Buffer) (off : Nat) (x : i16) (off2 : Nat)
    (h : i16.read buffer off = .ok (x, off2)) : i16.mk? x.value = .ok x := by
  unfold i16.read at h
  split at h
  next e heq => cases h
  next v heq =>
    split at h
    next e2 hm => cases h
    next y hm =>
      injection h with h2
      injection h2 with hx ho
      subst hx
      obtain rfl := i16_mk_ok_shape _ y hm
      exact hm

/-- Helper: the i32 constructor rejects every out-of-range value with an
error carrying the value and the bounds. -/
lemma i32_mk_out (v : Int) (h : v < (-2147483648) ∨ 2147483647 < v) :
    i32.mk? v = .error (.rangeErr v (-2147483648) 2147483647) := by
  unfold i32.mk? i32.bounds_min i32.bounds_max
  rw [if_pos h]

/-- Helper: a successful i32 construction stores exactly the given value. -/
lemma i32_mk_ok_shape (v : Int) (y : i32) (h : i32.mk? v = .ok y) : y = ⟨v⟩ := by
  unfold i32.mk? at h
  split at h
  · cases h
  · injection h with h2
    exact h2.symm

/-- Helper: every value produced by i32.read passes the i32 constructor
check, because read constructs its result through that constructor. -/
lemma i32_read_validates (buffer : Buffer) (off : Nat) (x : i32) (off2 : Nat)
    (h : i32.read buffer off = .ok (x, off2)) : i32.mk? x.value = .ok x := by
  unfold i32.read at h
  split at h
  next e heq => cases h
  next v heq =>
    split at h
    next e2 hm => cases h
    next y hm =>
      injection h with h2
      injection h2 with hx ho
      subst hx
      obtain rfl := i32_mk_ok_shape _ y hm
      exact hm

/-- Helper: the i64 constructor rejects every out-of-range value with an
error carrying the value and the bounds. -/
lemma i64_mk_out (v : Int) (h : v < (-9223372036854775808) ∨ 9223372036854775807 < v) :
    i64.mk? v = .error (.rangeErr v (-9223372036854775808) 9223372036854775807) := by
  unfold i64.mk? i64.bounds_min i64.bounds_max
  rw [if_pos h]

/-- Helper: a successful i64 construction stores exactly the given value. -/
lemma i64_mk_ok_shape (v : Int) (y : i64) (h : i64.mk? v = .ok y) : y = ⟨v⟩ := by
  unfold i64.mk? at h
  split at h
  · cases h
  · injection h with h2
    exact h2.symm

/-- Helper: every value produced by i64.read passes the i64 constructor
check, because read constructs its result through that constructor. -/
lemma i64_read_validates (buffer : Buffer) (off : Nat) (x : i64) (off2 : Nat)
    (h : i64.read buffer off = .ok (x, off2)) : i64.mk? x.value = .ok x := by
  unfold i64.read at h
  split at h
  next e heq => cases h
  next v heq =>
    split at h
    next e2 hm => cases h
    next y hm =>
      injection h with h2
      injection h2 with hx ho
      subst hx
      obtain rfl := i64_mk_ok_shape _ y hm
      exact hm

/-- Helper: the u8 constructor rejects every out-of-range value with an
error carrying the value and the bounds. -/
lemma u8_mk_out (v : Int) (h : v < 0 ∨ 255 < v) :
    u8.mk? v = .error (.rangeErr v 0 255) := by
  unfold u8.mk? u8.bounds_min u8.bounds_max
  rw [if_pos h]

/-- Helper: a successful u8 construction stores exactly the given value. -/
lemma u8_mk_ok_shape (v : Int) (y : u8) (h : u8.mk? v = .ok y) : y = ⟨v⟩ := by
  unfold u8.mk? at h
  split at h
  · cases h
  · injection h with h2
    exact h2.symm

/-- Helper: every value produced by u8.read passes the u8 constructor
check, because read constructs its result through that constructor. -/
lemma u8_read_validates (buffer : Buffer) (off : Nat) (x : u8) (off2 : Nat)
    (h : u8.read buffer off = .ok (x, off2)) : u8.mk? x.value = .ok x := by
  unfold u8.read at h
  split at h
  next e heq => cases h
  next v heq =>
    split at h
    next e2 hm => cases h
    next y hm =>
      injection h with h2
      injection h2 with hx ho
      subst hx
      obtain rfl := u8_mk_ok_shape _ y hm
      exact hm

/-- Helper: the u16 constructor rejects every out-of-range value with an
error carrying the value and the bounds. -/
lemma u16_mk_out (v : Int) (h : v < 0 ∨ 65535 < v) :
    u16.mk? v = .error (.rangeErr v 0 65535) := by
  unfold u16.mk? u16.bounds_min u16.bounds_max
  rw [if_pos h]

/-- Helper: a successful u16 construction stores exactly the given value. -/
lemma u16_mk_ok_shape (v : Int) (y : u16) (h : u16.mk? v = .ok y) : y = ⟨v⟩ := by
  unfold u16.mk? at h
  split at h
  · cases h
  · injection h with h2
    exact h2.symm

/-- Helper: every value produced by u16.read passes the u16 constructor
check, because read constructs its result through that constructor. -/
lemma u16_read_validates (buffer : Buffer) (off : Nat) (x : u16) (off2 : Nat)
    (h : u16.read buffer off = .ok (x, off2)) : u16.mk? x.value = .ok x := by
  unfold u16.read at h
  split at h
  next e heq => cases h
  next v heq =>
    split at h
    next e2 hm => cases h
    next y hm =>
      injection h with h2
      injection h2 with hx ho
      subst hx
      obtain rfl := u16_mk_ok_shape _ y hm
      exact hm

/-- Helper: the u32 constructor rejects every out-of-range value with an
error carrying the value and the bounds. -/
lemma u32_mk_out (v : Int) (h : v < 0 ∨ 4294967295 < v) :
    u32.mk? v = .error (.rangeErr v 0 4294967295) := by
  unfold u32.mk? u32.bounds_min u32.bounds_max
  rw [if_pos h]

/-- Helper: a successful u32 construction stores exactly the given value. -/
lemma u32_mk_ok_shape (v : Int) (y : u32) (h : u32.mk? v = .ok y) : y = ⟨v⟩ := by
  unfold u32.mk? at h
  split at h
  · cases h
  · injection h with h2
    exact h2.symm

/-- Helper: every value produced by u32.read passes the u32 constructor
check, because read constructs its result through that constructor. -/
lemma u32_read_validates (buffer : Buffer) (off : Nat) (x : u32) (off2 : Nat)
    (h : u32.read buffer off = .ok (x, off2)) : u32.mk? x.value = .ok x := by
  unfold u32.read at h
  split at h
  next e heq => cases h
  next v heq =>
    split at h
    next e2 hm => cases h
    next y hm =>
      injection h with h2
      injection h2 with hx ho
      subst hx
      obtain rfl := u32_mk_ok_shape _ y hm
      exact hm

/-- Helper: the u64 constructor rejects every out-of-range value with an
error carrying the value and the bounds. -/
lemma u64_mk_out (v : Int) (h : v < 0 ∨ 18446744073709551615 < v) :
    u64.mk? v = .error (.rangeErr v 0 18446744073709551615) := by
  unfold u64.mk? u64.bounds_min u64.bounds_max
  rw [if_pos h]

/-- Helper: a successful u64 construction stores exactly the given value. -/
lemma u64_mk_ok_shape (v : Int) (y : u64) (h : u64.mk? v = .ok y) : y = ⟨v⟩ := by
  unfold u64.mk? at h
  split at h
  · cases h
  · injection h with h2
    exact h2.symm

/-- Helper: every value produced by u64.read passes the u64 constructor
check, because read constructs its result through that constructor. -/
lemma u64_read_validates (buffer : Buffer) (off : Nat) (x : u64) (off2 : Nat)
    (h : u64.read buffer off = .ok (x, off2)) : u64.mk? x.value = .ok x := by
  unfold u64.read at h
  split at h
  next e heq => cases h
  next v heq =>
    split at h
    next e2 hm => cases h
    next y hm =>
      injection h with h2
      injection h2 with hx ho
      subst hx
      obtain rfl := u64_mk_ok_shape _ y hm
      exact hm

/-- C4: for every bounded numeric type, constructing from a raw value
strictly below the minimum or strictly above the maximum fails with an error
identifying the offending value and the valid range, constructing from
exactly the minimum or maximum succeeds, and the same check runs on the
construction made inside the static read. -/
theorem c4_range_enforcement :
    ((∀ v : Int, (v < (-128) ∨ 127 < v) → i8.mk? v = .error (.rangeErr v (-128) 127))
      ∧ i8.mk? (-128) = .ok ⟨(-128)⟩
      ∧ i8.mk? 127 = .ok ⟨127⟩
      ∧ (∀ (buffer : Buffer) (off : Nat) (x : i8) (off2 : Nat),
           i8.read buffer off = .ok (x, off2) → i8.mk? x.value = .ok x))
  ∧
    ((∀ v : Int, (v < (-32768) ∨ 32767 < v) → i16.mk? v = .error (.rangeErr v (-32768) 32767))
      ∧ i16.mk? (-32768) = .ok ⟨(-32768)⟩
      ∧ i16.mk? 32767 = .ok ⟨32767⟩
      ∧ (∀ (buffer : Buffer) (off : Nat) (x : i16) (off2 : Nat),
           i16.read buffer off = .ok (x, off2) → i16.mk? x.value = .ok x))
  ∧
    ((∀ v : Int, (v < (-2147483648) ∨ 2147483647 < v) → i32.mk? v = .error (.rangeErr v (-2147483648) 2147483647))
      ∧ i32.mk? (-2147483648) = .ok ⟨(-2147483648)⟩
      ∧ i32.mk? 2147483647 = .ok ⟨2147483647⟩
      ∧ (∀ (buffer : Buffer) (off : Nat) (x : i32) (off2 : Nat),
           i32.read buffer off = .ok (x, off2) → i32.mk? x.value = .ok x))
  ∧
    ((∀ v : Int, (v < (-9223372036854775808) ∨ 9223372036854775807 < v) → i64.mk? v = .error (.rangeErr v (-9223372036854775808) 9223372036854775807))
      ∧ i64.mk? (-9223372036854775808) = .ok ⟨(-9223372036854775808)⟩
      ∧ i64.mk? 9223372036854775807 = .ok ⟨9223372036854775807⟩
      ∧ (∀ (buffer : Buffer) (off : Nat) (x : i64) (off2 : Nat),
           i64.read buffer off = .ok (x, off2) → i64.mk? x.value = .ok x))
  ∧
    ((∀ v : Int, (v < 0 ∨ 255 < v) → u8.mk? v = .error (.rangeErr v 0 255))
      ∧ u8.mk? 0 = .ok ⟨0⟩
      ∧ u8.mk? 255 = .ok ⟨255⟩
      ∧ (∀ (buffer : Buffer) (off : Nat) (x : u8) (off2 : Nat),
           u8.read buffer off = .ok (x, off2) → u8.mk? x.value = .ok x))
  ∧
    ((∀ v : Int, (v < 0 ∨ 65535 < v) → u16.mk? v = .error (.rangeErr v 0 65535))
      ∧ u16.mk? 0 = .ok ⟨0⟩
      ∧ u16.mk? 65535 = .ok ⟨65535⟩
      ∧ (∀ (buffer : Buffer) (off : Nat) (x : u16) (off2 : Nat),
           u16.read buffer off = .ok (x, off2) → u16.mk? x.value = .ok x))
  ∧
    ((∀ v : Int, (v < 0 ∨ 4294967295 < v) → u32.mk? v = .error (.rangeErr v 0 4294967295))
      ∧ u32.mk? 0 = .ok ⟨0⟩
      ∧ u32.mk? 4294967295 = .ok ⟨4294967295⟩
      ∧ (∀ (buffer : Buffer) (off : Nat) (x : u32) (off2 : Nat),
           u32.read buffer off = .ok (x, off2) → u32.mk? x.value = .ok x))
  ∧
    ((∀ v : Int, (v < 0 ∨ 18446744073709551615 < v) → u64.mk? v = .error (.rangeErr v 0 18446744073709551615))
      ∧ u64.mk? 0 = .ok ⟨0⟩
      ∧ u64.mk? 18446744073709551615 = .ok ⟨18446744073709551615⟩
      ∧ (∀ (buffer : Buffer) (off : Nat) (x : u64) (off2 : Nat),
           u64.read buffer off = .ok (x, off2) → u64.mk? x.value = .ok x)) :=
  ⟨⟨i8_mk_out, rfl, rfl, i8_read_validates⟩,
   ⟨i16_mk_out, rfl, rfl, i16_read_validates⟩,
   ⟨i32_mk_out, rfl, rfl, i32_read_validates⟩,
   ⟨i64_mk_out, rfl, rfl, i64_read_validates⟩,
   ⟨u8_mk_out, rfl, rfl, u8_read_validates⟩,
   ⟨u16_mk_out, rfl, rfl, u16_read_validates⟩,
   ⟨u32_mk_out, rfl, rfl, u32_read_validates⟩,
   ⟨u64_mk_out, rfl, rfl, u64_read_validates⟩⟩

/-- C4 witness: concrete instances of the range enforcement theorem. -/
theorem c4_range_enforcement_witness :
    i8.mk? (-129) = .error (.rangeErr (-129) (-128) 127)
  ∧ u8.mk? 256 = .error (.rangeErr 256 0 255)
  ∧ u64.mk? 18446744073709551616
      = .error (.rangeErr 18446744073709551616 0 18446744073709551615)
  ∧ i8.mk? (-56) = .ok ⟨-56⟩ :=
  ⟨c4_range_enforcement.1.1 (-129) (Or.inl (by decide)),
   c4_range_enforcement.2.2.2.2.1.1 256 (Or.inr (by decide)),
   c4_range_enforcement.2.2.2.2.2.2.2.1 18446744073709551616 (Or.inr (by decide)),
   c4_range_enforcement.1.2.2.2 [200] 0 ⟨-56⟩ 1 rfl⟩

/-- C1: the claim states that after every successful write or read the cursor
advances by the fixed table width of the type (2 for u16, 4 for u32, 8 for
u64), which also equals the number of bytes moved. The code refutes this:
u16.write stores two bytes (value 258 becomes bytes 2 and 1) yet returns
cursor 1; u32.read consumes four buffer bytes yet returns cursor 1;
u64.write stores eight bytes yet returns cursor 1. -/
theorem c1_unsigned_cursor_mismatch :
    u16.write ⟨258⟩ [0, 0, 0, 0] 0 = .ok ([2, 1, 0, 0], 1)
  ∧ u32.read [1, 0, 0, 0, 9] 0 = .ok (⟨1⟩, 1)
  ∧ u64.write ⟨1⟩ [0, 0, 0, 0, 0, 0, 0, 0, 0] 0 = .ok ([1, 0, 0, 0, 0, 0, 0, 0, 0], 1) :=
  ⟨rfl, rfl, rfl⟩

/-- C2: the claim states that serializedSize and staticSize return the fixed
table width, in particular 2 for u16, 4 for u32 and 8 for u64. The code
refutes this: all three report 1. -/
theorem c2_unsigned_static_size_wrong :
    u16.staticSize = 1 ∧ u32.staticSize = 1 ∧ u64.staticSize = 1
  ∧ u16.serializedSize ⟨7⟩ = 1 ∧ u32.serializedSize ⟨7⟩ = 1 ∧ u64.serializedSize ⟨7⟩ = 1 := by
  decide

/-- C3: the claim states that serializing a u32(7) discriminant with an
i64(-1) body yields the 12 bytes 07 00 00 00 FF FF FF FF FF FF FF FF, that
reading that buffer against expected discriminant u32(7) yields i64(-1), and
against u32(8) yields no-match after consuming 4 bytes. The code refutes all
three parts: the writer allocates 1 + 8 = 9 bytes and the body overwrites
bytes 1..3 of the discriminant encoding, producing 07 FF FF FF FF FF FF FF FF;
the reader decodes the body at cursor 1 and returns i64(-16777216); the
mismatch case leaves the cursor at 1, not 4. -/
theorem c3_concrete_scenario_diverges :
    serializeInstruction (⟨7⟩ : u32) u32.serializedSize u32.write
        i64.serializedSize i64.write (⟨-1⟩ : i64)
      = .ok [7, 255, 255, 255, 255, 255, 255, 255, 255]
  ∧ readAccount u32.read u32.equals ⟨7⟩ i64.read
        [7, 0, 0, 0, 255, 255, 255, 255, 255, 255, 255, 255] 0
      = .ok (some ⟨-16777216⟩, 9)
  ∧ readAccount u32.read u32.equals ⟨8⟩ i64.read
        [7, 0, 0, 0, 255, 255, 255, 255, 255, 255, 255, 255] 0
      = .ok (none, 1) :=
  ⟨rfl, rfl, rfl⟩

/-- C5: the claim states that writing any in-range value and reading it back
from the same offset yields the value, with the cursor advancing by the
static table width in both directions. The code refutes the cursor part for
u16: writing value 5 at offset 0 stores the two bytes 05 00 but returns
cursor 1 (not 2), and reading those bytes back returns the value 5 with
cursor 1 (not 2). -/
theorem c5_u16_roundtrip_cursor_bug :
    u16.write ⟨5⟩ [9, 9] 0 = .ok ([5, 0], 1)
  ∧ u16.read [5, 0] 0 = .ok (⟨5⟩, 1) :=
  ⟨rfl, rfl⟩

/-- C6: the claim states that serializeInstruction returns a buffer of length
discriminant byte width plus body byte width, holding the discriminant
encoding at offset 0 immediately followed by the body encoding. The code
refutes this for a u16(1) discriminant with a u8(2) body: the allocation uses
the (wrong) serializedSize values 1 + 1 = 2, and the body byte overwrites the
second byte of the two-byte discriminant encoding, yielding [1, 2] instead of
the 3-byte layout [1, 0, 2]. -/
theorem c6_writer_layout_violated :
    serializeInstruction (⟨1⟩ : u16) u16.serializedSize u16.write
        u8.serializedSize u8.write (⟨2⟩ : u8)
      = .ok [1, 2] := rfl

/-- C7: the claim states that on a discriminant mismatch readAccount returns
the no-match sentinel with the cursor advanced by the discriminant byte
width. The code returns the sentinel but, for a u32 discriminant, advances
the cursor by 1 rather than by the 4 bytes the read consumed. -/
theorem c7_mismatch_cursor_bug :
    readAccount u32.read u32.equals ⟨7⟩ i64.read
        [8, 0, 0, 0, 255, 255, 255, 255, 255, 255, 255, 255] 0
      = .ok (none, 1) := rfl

/-- C8: the claim states that on a discriminant match readAccount decodes the
body just past the discriminant bytes and returns the original record. For a
u32(7) discriminant with i64(5) body the well-formed buffer is
07 00 00 00 05 00 00 00 00 00 00 00, but the code decodes the body at cursor
1 (inside the discriminant bytes) and returns i64(83886080), not i64(5). -/
theorem c8_match_decodes_wrong_offset :
    readAccount u32.read u32.equals ⟨7⟩ i64.read
        [7, 0, 0, 0, 5, 0, 0, 0, 0, 0, 0, 0] 0
      = .ok (some ⟨83886080⟩, 9) := rfl

/-- Helper: writing a byte list that fits within the buffer replaces exactly
the targeted span and leaves every byte outside it unchanged. -/
lemma writeBytes_eq (l : List Nat) : ∀ (buf : Buffer) (off : Nat),
    off + l.length ≤ buf.length →
    writeBytes buf off l = buf.take off ++ l ++ buf.drop (off + l.length) := by
  induction l with
  | nil =>
    intro buf off _
    simp [writeBytes]
  | cons b rest ih =>
    intro buf off h
    simp only [List.length_cons] at h
    have hlt : off < buf.length := by omega
    rw [writeBytes]
    rw [ih (buf.set off b) (off + 1) (by simp only [List.length_set]; omega)]
    rw [List.set_eq_take_cons_drop b hlt]
    have hA : (buf.take off).length = off := by
      simp [List.length_take]
      omega
    have t1 : ((buf.take off ++ b :: buf.drop (off + 1)).take (off + 1))
        = buf.take off ++ [b] := by
      rw [List.take_append_eq_append_take, hA]
      have h2 : (buf.take off).take (off + 1) = buf.take off :=
        List.take_of_length_le (by omega)
      rw [h2]
      simp
    have t2 : ((buf.take off ++ b :: buf.drop (off + 1)).drop (off + 1 + rest.length))
        = buf.drop (off + (rest.length + 1)) := by
      rw [List.drop_append_eq_append_drop, hA]
      have h0 : (buf.take off).drop (off + 1 + rest.length) = [] :=
        List.drop_eq_nil_of_le (by omega)
      rw [h0]
      have h1 : off + 1 + rest.length - off = rest.length + 1 := by omega
      rw [h1]
      simp [List.drop_drop]
      congr 1
      omega
    rw [t1, t2]
    simp [List.append_assoc]

/-- C9: for every 32-byte identifier and sufficiently large buffer, the
identifier codec writes exactly the 32 key bytes at the cursor without
touching any byte outside that span (the buffer becomes prefix ++ key bytes
++ suffix), advances the cursor by 32; read slices exactly 32 bytes from the
cursor and advances it by 32; reading back a written key yields a
byte-for-byte equal identifier; and staticSize and serializedSize both
return 32. -/
theorem c9_publickey_codec (k : List Nat) (buffer : Buffer) (off : Nat)
    (hk : k.length = 32) (hfit : off + 32 ≤ buffer.length) :
    SerializablePublicKey.write ⟨⟨k⟩⟩ buffer off
      = (buffer.take off ++ k ++ buffer.drop (off + 32), off + 32)
  ∧ SerializablePublicKey.read buffer off
      = (⟨⟨(buffer.drop off).take 32⟩⟩, off + 32)
  ∧ SerializablePublicKey.read (SerializablePublicKey.write ⟨⟨k⟩⟩ buffer off).1 off
      = (⟨⟨k⟩⟩, off + 32)
  ∧ SerializablePublicKey.staticSize = 32
  ∧ SerializablePublicKey.serializedSize ⟨⟨k⟩⟩ = 32 := by
  have hw : writeBytes buffer off k = buffer.take off ++ k ++ buffer.drop (off + 32) := by
    have h2 := writeBytes_eq k buffer off (by omega)
    rwa [hk] at h2
  have hA : (buffer.take off).length = off := by
    simp [List.length_take]
    omega
  refine ⟨?_, rfl, ?_, rfl, rfl⟩
  · show (writeBytes buffer off k, off + 32) = _
    rw [hw]
  · show (⟨⟨((writeBytes buffer off k).drop off).take 32⟩⟩, off + 32)
        = ((⟨⟨k⟩⟩ : SerializablePublicKey), off + 32)
    rw [hw, List.append_assoc]
    have hd : (buffer.take off ++ (k ++ buffer.drop (off + 32))).drop off
        = k ++ buffer.drop (off + 32) := by
      rw [List.drop_append_eq_append_drop, hA]
      have h0 : (buffer.take off).drop off = [] := List.drop_eq_nil_of_le (by omega)
      rw [h0]
      simp
    rw [hd]
    have ht : (k ++ buffer.drop (off + 32)).take 32 = k := by
      rw [List.take_append_eq_append_take]
      rw [List.take_of_length_le (by omega), hk]
      simp
    rw [ht]

/-- C9 witness: a concrete 32-byte key written into a 40-byte buffer at
offset 4 reads back byte-for-byte equal with the cursor at 36. -/
theorem c9_publickey_codec_witness :
    SerializablePublicKey.read
        (SerializablePublicKey.write ⟨⟨List.replicate 32 3⟩⟩ (List.replicate 40 0) 4).1 4
      = (⟨⟨List.replicate 32 3⟩⟩, 36) :=
  (c9_publickey_codec (List.replicate 32 3) (List.replicate 40 0) 4
    (by decide) (by decide)).2.2.1

/-- C10: readAccount called without an explicit cursor argument behaves
exactly as readAccount with a fresh cursor at offset 0, for every
discriminant model, record model and buffer. -/
theorem c10_default_cursor_starts_at_zero {D T : Type}
    (dRead : Buffer → Nat → Except CodecErr (D × Nat))
    (dEquals : D → D → Bool)
    (tDiscriminant : D)
    (tRead : Buffer → Nat → Except CodecErr (T × Nat))
    (buffer : Buffer) :
    readAccountDefault dRead dEquals tDiscriminant tRead buffer
      = readAccount dRead dEquals tDiscriminant tRead buffer 0 := rfl

end Cruiser
